import Mathlib

/-!
# GLTemplate: `src/main.c`

A shallow embedding of the single translation unit of the repository: the
shader-kind label lookup, the shader builder, the five window callbacks and
`main` with its render loop.

The program talks to two collaborators that are not part of the repository
(the graphics library and the windowing library).  Every call the program
makes to them, and every write to an output stream, is recorded in order as an
`Event`; every value a collaborator hands back is read from a reply record
(`GLReplies`, `Collaborators`) that is an input of the embedding, so that a
statement quantified over the reply records covers every behaviour of the
collaborators.  Heap management (`malloc`/`free`) is not recorded as calls.
The log buffers of `buildShader` are allocated with the length the library
reports and printed with `%s`; what `%s` reads from a buffer the library left
unwritten is not fixed by the program and is an input as well (`unwritten`).
-/

namespace GLTemplate

/-! ## Types and header constants -/

abbrev GLenum := Nat
abbrev GLuint := Nat
abbrev GLint := Int
abbrev GLsizei := Int

/-- Modelled from the spec: the header constant `GL_FALSE` (the graphics header
is not under `src/`); the value is the one of the OpenGL registry. -/
def GL_FALSE : GLint := 0

/-- Modelled from the spec: the header constant `GL_VERTEX_SHADER`, the vertex
stage kind (the graphics header is not under `src/`); registry value. -/
def GL_VERTEX_SHADER : GLenum := 0x8B31

/-- Modelled from the spec: the header constant `GL_FRAGMENT_SHADER`, the
fragment stage kind (the graphics header is not under `src/`); registry value. -/
def GL_FRAGMENT_SHADER : GLenum := 0x8B30

/-- Modelled from the spec: the header constant `GL_COMPILE_STATUS` (the
graphics header is not under `src/`); registry value. -/
def GL_COMPILE_STATUS : GLenum := 0x8B81

/-- Modelled from the spec: the header constant `GL_LINK_STATUS` (the graphics
header is not under `src/`); registry value. -/
def GL_LINK_STATUS : GLenum := 0x8B82

/-- Modelled from the spec: the header constant `GL_INFO_LOG_LENGTH` (the
graphics header is not under `src/`); registry value. -/
def GL_INFO_LOG_LENGTH : GLenum := 0x8B84

/-- Modelled from the spec: the header constant `GL_TRIANGLES`, the triangle
list primitive (the graphics header is not under `src/`); registry value. -/
def GL_TRIANGLES : GLenum := 0x0004

/-- Modelled from the spec: the null pointer of `stddef.h`, as an address. -/
def NULL : Nat := 0

/-- Modelled from the spec: the success status of `stdlib.h`. -/
def EXIT_SUCCESS : Int := 0

/-- Modelled from the spec: the failure status of `stdlib.h`. -/
def EXIT_FAILURE : Int := 1

/-- The `shader_info` struct of `main.c`: a stage kind and its source text. -/
structure shader_info where
  shader_type : GLenum
  shader_source : String
deriving DecidableEq, Repr

/-- The five callback functions `main` hands to the windowing library. -/
inductive Callback where
  | window_resize_callback
  | key_callback
  | mouse_button_callback
  | cursor_position_callback
  | scroll_callback
deriving DecidableEq, Repr

/-- One call to a collaborator, or one write to an output stream, with the
arguments the program passes and, for the calls whose result the program
reads, the value handed back; for the two log calls, the C string the buffer
holds after the call.  Window pointers are addresses (`NULL` is 0). -/
inductive Event where
  | glCreateProgram (ret : GLuint)
  | glCreateShader (shader_type : GLenum) (ret : GLuint)
  | glShaderSource (shader : GLuint) (count : GLsizei) (source : String)
  | glCompileShader (shader : GLuint)
  | glGetShaderiv (shader : GLuint) (pname : GLenum) (written : Option GLint)
  | glGetShaderInfoLog (shader : GLuint) (bufSize : GLsizei) (buffer : String)
  | glAttachShader (program : GLuint) (shader : GLuint)
  | glLinkProgram (program : GLuint)
  | glGetProgramiv (program : GLuint) (pname : GLenum) (written : Option GLint)
  | glGetProgramInfoLog (program : GLuint) (bufSize : GLsizei) (buffer : String)
  | glDeleteShader (shader : GLuint)
  | glViewport (x y : GLint) (width height : GLsizei)
  | glUseProgram (program : GLuint)
  | glDrawArrays (mode : GLenum) (first : GLint) (count : GLsizei)
  | glfwInit
  | glfwCreateWindow (width height : Int) (title : String) (ret : Nat)
  | glfwMakeContextCurrent (window : Nat)
  | glfwTerminate
  | gladLoadGL (ret : Int)
  | gladLoadGLES2Loader (ret : Int)
  | glfwSetWindowSizeCallback (window : Nat) (cb : Callback)
  | glfwSetKeyCallback (window : Nat) (cb : Callback)
  | glfwSetMouseButtonCallback (window : Nat) (cb : Callback)
  | glfwSetCursorPosCallback (window : Nat) (cb : Callback)
  | glfwSetScrollCallback (window : Nat) (cb : Callback)
  | glfwWindowShouldClose (window : Nat) (ret : Int)
  | glfwPollEvents
  | glfwSwapBuffers (window : Nat)
  | fprintf_stderr (text : String)
  | printf (text : String)
deriving DecidableEq, Repr

/-- What the graphics library answers about the stage object created for one
descriptor: the handle `glCreateShader` returns, the value each `glGetShaderiv`
query writes into its out-parameter (`none` when the query writes nothing and
the variable keeps its initial value), and the information log that
`glGetShaderInfoLog` copies out (`none` when that call writes nothing).
`unwritten` is what `%s` reads from the log buffer of line 55 when the library
has written nothing into it: the bytes the allocation happens to hold, or the
text the C library prints for a null pointer. -/
structure StageReply where
  id : GLuint
  compile_status : Option GLint
  log_length : Option GLint
  info_log : Option String
  unwritten : String
deriving DecidableEq, Repr

/-- What the graphics library answers about the program object: the handle
`glCreateProgram` returns, the value each `glGetProgramiv` query writes, and
the information log that `glGetProgramInfoLog` copies out (`none` when that
call writes nothing).  `unwritten` is what `%s` reads from the log buffer of
line 75 when the library has written nothing into it. -/
structure ProgramReply where
  id : GLuint
  link_status : Option GLint
  log_length : Option GLint
  info_log : Option String
  unwritten : String
deriving DecidableEq, Repr

/-- The replies of the graphics library during one `buildShader` call;
`stage i` answers for the stage object of the descriptor at index `i`. -/
structure GLReplies where
  program : ProgramReply
  stage : Nat → StageReply

/-- The replies of the windowing library and of the function-table loader
during one run of `main`, with the replies of the graphics library.
`should_close j` answers the close query number `j` (from 0). -/
structure Collaborators where
  window : Nat
  load : Int
  version_major : Int
  version_minor : Int
  gl : GLReplies
  should_close : Nat → Int

/-! ## `get_shader_type_name` -/

/-- The `switch` of `get_shader_type_name` (lines 15 to 34). -/
def get_shader_type_name (shader_type : GLenum) : String :=
  if shader_type = GL_VERTEX_SHADER then "vertex"
  else if shader_type = GL_FRAGMENT_SHADER then "fragment"
  else ""

/-! ## `buildShader` -/

/-- The loop `for (GLsizei i = 0; i < n; i++) body`, entered with `k`
iterations left and counter `i`; the body may fail to have a defined result. -/
def forFrom {α : Type} (body : Nat → α → Option α) : Nat → Nat → α → Option α
  | 0, _, s => some s
  | k + 1, i, s =>
    match body i s with
    | none => none
    | some s1 => forFrom body k (i + 1) s1

/-- The loop `for (GLsizei i = 0; i < n; i++) body` for a signed bound `n`. -/
def forLoop {α : Type} (n : GLsizei) (body : Nat → α → Option α) (s : α) : Option α :=
  forFrom body n.toNat 0 s

/-- Modelled from the spec: the fetch of a diagnostic log, size first, then
contents (the library is a collaborator outside the repository).  The result
is the C string `%s` reads from the buffer `infoLog` after
`infoLog = malloc(log_length)` and the library call with `bufSize = log_length`
(lines 55 and 56, 75 and 76).  The library copies at most `log_length` bytes,
terminator included, so with a positive length the buffer holds the first
`log_length - 1` characters of the log.  With a length of 0 or below (an empty
or null allocation), or when the call writes nothing, the buffer holds no
written string and `%s` reads `unwritten`. -/
def log_buffer (log_length : GLint) (info_log : Option String) (unwritten : String) : String :=
  match info_log with
  | some log =>
    if 0 < log_length then String.mk (log.data.take (log_length.toNat - 1)) else unwritten
  | none => unwritten

/-- The calls and writes of one iteration of the first loop of `buildShader`
(lines 44 to 63) for descriptor `info`, the replies being `reply`. -/
def compile_stage (program_id : GLuint) (info : shader_info) (reply : StageReply) : List Event :=
  let shader_id := reply.id
  let compile_success := reply.compile_status.getD GL_FALSE
  [Event.glCreateShader info.shader_type shader_id,
   Event.glShaderSource shader_id 1 info.shader_source,
   Event.glCompileShader shader_id,
   Event.glGetShaderiv shader_id GL_COMPILE_STATUS reply.compile_status] ++
  (if compile_success = GL_FALSE then
    let log_length := reply.log_length.getD 0
    let infoLog := log_buffer log_length reply.info_log reply.unwritten
    [Event.glGetShaderiv shader_id GL_INFO_LOG_LENGTH reply.log_length,
     Event.glGetShaderInfoLog shader_id log_length infoLog,
     Event.fprintf_stderr
       ("error: " ++ get_shader_type_name info.shader_type ++
        " shader compilation failed:\n" ++ infoLog ++ "\n")]
  else
    [Event.glAttachShader program_id shader_id])

/-- The body of the first loop of `buildShader`: reads `shaders[i]` (no
defined result outside the array), stores the new handle in `shader_ids[i]`
and extends the history.  The first component of the state holds the entries
of `shader_ids` written so far; iteration `i` writes entry `i` at its end. -/
def compile_body (gl : GLReplies) (program_id : GLuint) (shaders : List shader_info)
    (i : Nat) (st : List GLuint × List Event) : Option (List GLuint × List Event) :=
  match shaders[i]? with
  | none => none
  | some info =>
    some (st.1 ++ [(gl.stage i).id], st.2 ++ compile_stage program_id info (gl.stage i))

/-- The calls and writes of lines 66 to 79: the link request, the status
query and, on failure, the log queries and the message. -/
def link_program (reply : ProgramReply) : List Event :=
  let program_id := reply.id
  let link_success := reply.link_status.getD GL_FALSE
  [Event.glLinkProgram program_id,
   Event.glGetProgramiv program_id GL_LINK_STATUS reply.link_status] ++
  (if link_success = GL_FALSE then
    let log_length := reply.log_length.getD 0
    let infoLog := log_buffer log_length reply.info_log reply.unwritten
    [Event.glGetProgramiv program_id GL_INFO_LOG_LENGTH reply.log_length,
     Event.glGetProgramInfoLog program_id log_length infoLog,
     Event.fprintf_stderr
       ("error: shader program link failed:\n" ++ infoLog ++ "\n")]
  else [])

/-- The body of the second loop of `buildShader` (lines 81 and 82): reads
`shader_ids[i]` and deletes that stage object. -/
def delete_body (shader_ids : List GLuint) (i : Nat) (tr : List Event) : Option (List Event) :=
  match shader_ids[i]? with
  | none => none
  | some shader_id => some (tr ++ [Event.glDeleteShader shader_id])

/-- The function `buildShader` (lines 36 to 87), run after the history `tr`:
the returned handle and the extended history, or `none` when the loop reads
past the end of `shaders`. -/
def buildShader (gl : GLReplies) (num_shaders : GLsizei) (shaders : List shader_info)
    (tr : List Event) : Option (GLuint × List Event) :=
  let program_id := gl.program.id
  let tr := tr ++ [Event.glCreateProgram program_id]
  match forLoop num_shaders (compile_body gl program_id shaders) ([], tr) with
  | none => none
  | some (shader_ids, tr) =>
    let tr := tr ++ link_program gl.program
    match forLoop num_shaders (delete_body shader_ids) tr with
    | none => none
    | some tr => some (program_id, tr)

/-! ## The callbacks -/

/-- The function `window_resize_callback` (lines 89 to 92). -/
def window_resize_callback (_window : Nat) (width height : Int) : List Event :=
  [Event.glViewport 0 0 width height]

/-- The function `key_callback` (lines 94 to 96), with an empty body. -/
def key_callback (_window : Nat) (_key _scancode _action _mods : Int) : List Event := []

/-- The function `cursor_position_callback` (lines 98 to 100), with an empty body. -/
def cursor_position_callback (_window : Nat) (_xpos _ypos : Float) : List Event := []

/-- The function `mouse_button_callback` (lines 102 to 104), with an empty body. -/
def mouse_button_callback (_window : Nat) (_button _action _mods : Int) : List Event := []

/-- The function `scroll_callback` (lines 106 to 108), with an empty body. -/
def scroll_callback (_window : Nat) (_xoffset _yoffset : Float) : List Event := []

/-! ## `main` -/

def WINDOW_WIDTH : GLuint := 1024

def WINDOW_HEIGHT : GLuint := 768

/-- The macro `GLSL_VERSION` (lines 145 to 149) under either build setting. -/
def GLSL_VERSION (GLAD_GLES : Bool) : String := if GLAD_GLES then "130" else "460"

/-- The static array `shaders` of `main` (lines 151 to 173). -/
def shaders (GLAD_GLES : Bool) : List shader_info :=
  [{ shader_type := GL_VERTEX_SHADER,
     shader_source :=
       "#version " ++ GLSL_VERSION GLAD_GLES ++ "\n" ++
       "out vec2 texCoords;\n" ++
       "void main()\n" ++
       "\x7b\n" ++
       "  texCoords = 2.0 * vec2(gl_VertexID & 1, gl_VertexID >> 1);\n" ++
       "  gl_Position = vec4(texCoords * 2.0 - 1.0, 0.0, 1.0);\n" ++
       "\x7d\n" },
   { shader_type := GL_FRAGMENT_SHADER,
     shader_source :=
       "#version " ++ GLSL_VERSION GLAD_GLES ++ "\n" ++
       "in vec2 texCoords;\n" ++
       "out vec4 outputColor;\n" ++
       "void main()\n" ++
       "\x7b\n" ++
       "  outputColor = vec4(texCoords, 0.0, 1.0);\n" ++
       "\x7d\n" }]

/-- The constant `num_shaders` of `main`: `ARRAY_SIZE(shaders)`. -/
def num_shaders : GLsizei := 2

/-- The render loop of `main` (lines 181 to 188), entered before close query
number `j` with `fuel` queries allowed; `none` when the allowance runs out
before the close signal is seen.  What the windowing library does inside
`glfwPollEvents` (it may run the registered callbacks) is not a call of `main`
and is not recorded. -/
def render_loop (c : Collaborators) (window : Nat) : Nat → Nat → List Event → Option (List Event)
  | 0, _, _ => none
  | fuel + 1, j, tr =>
    let should_close := c.should_close j
    let tr := tr ++ [Event.glfwWindowShouldClose window should_close]
    if should_close = 0 then
      render_loop c window fuel (j + 1)
        (tr ++ [Event.glfwPollEvents,
                Event.glDrawArrays GL_TRIANGLES 0 3,
                Event.glfwSwapBuffers window])
    else some tr

/-- The function `main` (lines 110 to 192) under build setting `GLAD_GLES`:
the exit status and the whole history, or `none` when the render loop is
still running after `fuel` close queries. -/
def main (GLAD_GLES : Bool) (c : Collaborators) (fuel : Nat) : Option (Int × List Event) :=
  let tr := [Event.glfwInit]
  let window := c.window
  let tr := tr ++ [Event.glfwCreateWindow WINDOW_WIDTH WINDOW_HEIGHT "Template OpenGL Project" window]
  let tr := tr ++ [Event.glfwMakeContextCurrent window]
  if window = NULL then
    some (EXIT_FAILURE,
      tr ++ [Event.fprintf_stderr "Failed to create GLFW window\n", Event.glfwTerminate])
  else
    let tr := tr ++ [if GLAD_GLES then Event.gladLoadGLES2Loader c.load else Event.gladLoadGL c.load]
    if c.load = 0 then
      some (EXIT_FAILURE,
        tr ++ [Event.fprintf_stderr "Failed to initialize OpenGL context\n", Event.glfwTerminate])
    else
      let tr := tr ++ [Event.printf
        ("OpenGL " ++ toString c.version_major ++ "." ++ toString c.version_minor ++ "\n")]
      let tr := tr ++ [Event.glfwSetWindowSizeCallback window Callback.window_resize_callback,
                       Event.glfwSetKeyCallback window Callback.key_callback,
                       Event.glfwSetMouseButtonCallback window Callback.mouse_button_callback,
                       Event.glfwSetCursorPosCallback window Callback.cursor_position_callback,
                       Event.glfwSetScrollCallback window Callback.scroll_callback]
      match buildShader c.gl num_shaders (shaders GLAD_GLES) tr with
      | none => none
      | some (shader_program, tr) =>
        let tr := tr ++ [Event.glViewport 0 0 WINDOW_WIDTH WINDOW_HEIGHT]
        let tr := tr ++ [Event.glUseProgram shader_program]
        match render_loop c window fuel 0 tr with
        | none => none
        | some tr => some (EXIT_SUCCESS, tr ++ [Event.glfwTerminate])

/-! ## Observations on a history -/

/-- The stage objects created in a history: kind and handle of each
`glCreateShader` call, in order. -/
def created_stages (tr : List Event) : List (GLenum × GLuint) :=
  tr.filterMap fun e => match e with
    | Event.glCreateShader ty ret => some (ty, ret)
    | _ => none

/-- The source assignments in a history: handle, count and text of each
`glShaderSource` call, in order. -/
def sourced_stages (tr : List Event) : List (GLuint × GLsizei × String) :=
  tr.filterMap fun e => match e with
    | Event.glShaderSource sh n src => some (sh, n, src)
    | _ => none

/-- The stage handles whose compilation is requested in a history, in order. -/
def compiled_stages (tr : List Event) : List GLuint :=
  tr.filterMap fun e => match e with
    | Event.glCompileShader sh => some sh
    | _ => none

/-- The attachments in a history: program and stage handle of each
`glAttachShader` call, in order. -/
def attached_stages (tr : List Event) : List (GLuint × GLuint) :=
  tr.filterMap fun e => match e with
    | Event.glAttachShader prog sh => some (prog, sh)
    | _ => none

/-- The stage handles passed to `glDeleteShader` in a history, in order. -/
def deleted_stages (tr : List Event) : List GLuint :=
  tr.filterMap fun e => match e with
    | Event.glDeleteShader sh => some sh
    | _ => none

/-- The handles returned by `glCreateProgram` calls in a history, in order. -/
def created_programs (tr : List Event) : List GLuint :=
  tr.filterMap fun e => match e with
    | Event.glCreateProgram ret => some ret
    | _ => none

/-- The number of stage objects created in a history and not yet passed to
`glDeleteShader`. -/
def outstanding_stages (tr : List Event) : Int :=
  ((created_stages tr).length : Int) - ((deleted_stages tr).length : Int)

/-- The texts written to the error stream in a history, in order. -/
def stderr_writes (tr : List Event) : List String :=
  tr.filterMap fun e => match e with
    | Event.fprintf_stderr text => some text
    | _ => none

/-- Concatenation of a list of texts. -/
def concat_text (l : List String) : String := l.foldr (fun a b => a ++ b) ""

/-- Everything a history writes to the error stream. -/
def stderr_text (tr : List Event) : String := concat_text (stderr_writes tr)

/-! ## The outcomes the claims speak of -/

/-- The compile-status query of a stage reported success: it wrote a value
other than `GL_FALSE`. -/
def StageReply.compiled (r : StageReply) : Bool :=
  match r.compile_status with
  | some v => v != GL_FALSE
  | none => false

/-- The link-status query of the program reported success: it wrote a value
other than `GL_FALSE`. -/
def ProgramReply.linked (r : ProgramReply) : Bool :=
  match r.link_status with
  | some v => v != GL_FALSE
  | none => false

/-- The C string the log buffer of a stage holds when line 57 prints it. -/
def StageReply.buffer (r : StageReply) : String :=
  log_buffer (r.log_length.getD 0) r.info_log r.unwritten

/-- The C string the log buffer of the program holds when line 77 prints it. -/
def ProgramReply.buffer (r : ProgramReply) : String :=
  log_buffer (r.log_length.getD 0) r.info_log r.unwritten

/-- The descriptors of a sequence paired with the replies for their stage
objects, the first descriptor having index `i`. -/
def stage_runs (gl : GLReplies) : Nat → List shader_info → List (shader_info × StageReply)
  | _, [] => []
  | i, info :: rest => (info, gl.stage i) :: stage_runs gl (i + 1) rest

/-- The block the specification gives for a stage that failed to compile. -/
def compile_error_block (label log : String) : String :=
  "error: " ++ label ++ " shader compilation failed:\n" ++ log ++ "\n"

/-- The block the specification gives for a failed link. -/
def link_error_block (log : String) : String :=
  "error: shader program link failed:\n" ++ log ++ "\n"

/-- The error-stream text the specification gives for a build: one block per
stage that failed to compile, in input order, with the information log of
that stage (empty when it has none), then the link block with the information
log of the program when the link failed. -/
def expected_stderr (gl : GLReplies) (descriptors : List shader_info) : String :=
  concat_text
    (((stage_runs gl 0 descriptors).filter fun x => !x.2.compiled).map fun x =>
      compile_error_block (get_shader_type_name x.1.shader_type) (x.2.info_log.getD "")) ++
  (if gl.program.linked then "" else link_error_block (gl.program.info_log.getD ""))

/-- The calls of one iteration of the render loop as the specification gives
them: the close query answering "not closed", one event poll, one draw of 3
vertices from vertex 0 as a triangle list, one buffer swap. -/
def frame (window : Nat) : List Event :=
  [Event.glfwWindowShouldClose window 0,
   Event.glfwPollEvents,
   Event.glDrawArrays GL_TRIANGLES 0 3,
   Event.glfwSwapBuffers window]

/-- The calls that belong to the render loop and to the teardown. -/
def Event.is_loop_call : Event → Bool
  | Event.glfwWindowShouldClose _ _ => true
  | Event.glfwPollEvents => true
  | Event.glDrawArrays _ _ _ => true
  | Event.glfwSwapBuffers _ => true
  | Event.glfwTerminate => true
  | _ => false

/-! ## The state the callbacks act on -/

/-- The components of the graphics and application state that the
specification names: the active viewport, the bound program, the attached
stages, the window whose context is current, and the two output streams. -/
structure GfxState where
  viewport : GLint × GLint × GLsizei × GLsizei
  bound_program : GLuint
  attached : List (GLuint × GLuint)
  window : Nat
  stderr : String
  stdout : String
deriving DecidableEq, Repr

/-- Modelled from the spec: the effect of one call on the state components
above (the libraries are collaborators outside the repository).  `glViewport`
sets the active viewport, `glUseProgram` binds a program, `glAttachShader`
attaches a stage, `glfwMakeContextCurrent` selects the window, the two print
calls extend their stream; the other calls leave these components as they are. -/
def Event.apply (s : GfxState) : Event → GfxState
  | Event.glViewport x y width height => { s with viewport := (x, y, width, height) }
  | Event.glUseProgram prog => { s with bound_program := prog }
  | Event.glAttachShader prog sh => { s with attached := s.attached ++ [(prog, sh)] }
  | Event.glfwMakeContextCurrent w => { s with window := w }
  | Event.fprintf_stderr text => { s with stderr := s.stderr ++ text }
  | Event.printf text => { s with stdout := s.stdout ++ text }
  | _ => s

/-- The state after the calls of a history, starting from `s`. -/
def run_calls (s : GfxState) (tr : List Event) : GfxState := tr.foldl Event.apply s

/-- The calls and writes of one `buildShader` call that processes the
descriptors `descriptors`: the program creation, one `compile_stage` per
descriptor, the link step, one deletion per stage handle. -/
def build_calls (gl : GLReplies) (descriptors : List shader_info) : List Event :=
  [Event.glCreateProgram gl.program.id] ++
  (stage_runs gl 0 descriptors).flatMap (fun x => compile_stage gl.program.id x.1 x.2) ++
  link_program gl.program ++
  ((stage_runs gl 0 descriptors).map fun x => x.2.id).map Event.glDeleteShader

/-- The calls and writes of `main` before the render loop (lines 115 to 179)
in a run whose window is created and whose function table loads. -/
def startup_calls (GLAD_GLES : Bool) (c : Collaborators) : List Event :=
  [Event.glfwInit,
   Event.glfwCreateWindow WINDOW_WIDTH WINDOW_HEIGHT "Template OpenGL Project" c.window,
   Event.glfwMakeContextCurrent c.window,
   if GLAD_GLES then Event.gladLoadGLES2Loader c.load else Event.gladLoadGL c.load,
   Event.printf
     ("OpenGL " ++ toString c.version_major ++ "." ++ toString c.version_minor ++ "\n"),
   Event.glfwSetWindowSizeCallback c.window Callback.window_resize_callback,
   Event.glfwSetKeyCallback c.window Callback.key_callback,
   Event.glfwSetMouseButtonCallback c.window Callback.mouse_button_callback,
   Event.glfwSetCursorPosCallback c.window Callback.cursor_position_callback,
   Event.glfwSetScrollCallback c.window Callback.scroll_callback] ++
  build_calls c.gl (shaders GLAD_GLES) ++
  [Event.glViewport 0 0 WINDOW_WIDTH WINDOW_HEIGHT,
   Event.glUseProgram c.gl.program.id]

/-! ## Concrete inputs -/

/-- Replies of a graphics library that accepts every stage and the link:
program handle 1, stage handles 2, 3, ... -/
def gl_accepting : GLReplies :=
  { program := { id := 1, link_status := some 1, log_length := some 0, info_log := some "",
                 unwritten := "" },
    stage := fun i =>
      { id := i + 2, compile_status := some 1, log_length := some 0, info_log := some "",
        unwritten := "" } }

/-- Replies of a graphics library that rejects the stage at index 0 and then
the link, each with a log and the length of that log with its terminator. -/
def gl_rejecting : GLReplies :=
  { program := { id := 1, link_status := some 0, log_length := some 4, info_log := some "bad",
                 unwritten := "" },
    stage := fun i =>
      if i = 0 then
        { id := 2, compile_status := some 0, log_length := some 5, info_log := some "oops",
          unwritten := "" }
      else
        { id := i + 2, compile_status := some 1, log_length := some 0, info_log := some "",
          unwritten := "" } }

/-- Replies of a graphics library that compiles every stage and rejects the
link, with a log of 8 characters and the length 9. -/
def gl_link_rejecting : GLReplies :=
  { program := { id := 1, link_status := some 0, log_length := some 9,
                 info_log := some "two main", unwritten := "" },
    stage := fun i =>
      { id := i + 2, compile_status := some 1, log_length := some 0, info_log := some "",
        unwritten := "" } }

/-- A descriptor of a kind the graphics library does not know. -/
def unknown_stage : shader_info := { shader_type := 0, shader_source := "void main() \x7b\x7d" }

/-- Replies of a graphics library to `unknown_stage`: no stage object is
created (handle 0), so the status query, the length query and the log call all
write nothing; the empty allocation of line 55 reads as the two bytes "XY".
The link of the empty program is rejected with a log of 9 characters and the
length 10. -/
def gl_no_stage_object : GLReplies :=
  { program := { id := 1, link_status := some 0, log_length := some 10,
                 info_log := some "no stages", unwritten := "" },
    stage := fun _ =>
      { id := 0, compile_status := none, log_length := none, info_log := none,
        unwritten := "XY" } }

/-- Two vertex-kind descriptors with the same valid source, each defining the
entry point. -/
def two_vertex_stages : List shader_info :=
  [{ shader_type := GL_VERTEX_SHADER, shader_source := "void main() \x7b\x7d" },
   { shader_type := GL_VERTEX_SHADER, shader_source := "void main() \x7b\x7d" }]

/-- A run whose window is created, whose function table loads, whose shaders
are all rejected, and whose close signal comes at the third query. -/
def run_rejected_shaders : Collaborators :=
  { window := 16, load := 1, version_major := 4, version_minor := 6,
    gl := gl_rejecting,
    should_close := fun j => if j < 2 then 0 else 1 }

/-- A run in which window creation returns no window. -/
def run_no_window : Collaborators :=
  { window := NULL, load := 1, version_major := 4, version_minor := 6,
    gl := gl_accepting,
    should_close := fun _ => 1 }

/-- A run in which the window is created and the function-table load fails. -/
def run_no_table : Collaborators :=
  { window := 16, load := 0, version_major := 0, version_minor := 0,
    gl := gl_accepting,
    should_close := fun _ => 1 }

/-! ## The two loops of `buildShader` -/

theorem stage_runs_length (gl : GLReplies) (l : List shader_info) :
    ∀ i, (stage_runs gl i l).length = l.length := by
  induction l with
  | nil => intro i; rfl
  | cons a l ih => intro i; simp [stage_runs, ih]

theorem stage_runs_map_fst (gl : GLReplies) (l : List shader_info) :
    ∀ i, (stage_runs gl i l).map Prod.fst = l := by
  induction l with
  | nil => intro i; rfl
  | cons a l ih => intro i; simp [stage_runs, ih]

theorem forFrom_compile_body (gl : GLReplies) (p : GLuint) :
    ∀ (k : Nat) (pre suf : List shader_info) (ids : List GLuint) (tr : List Event),
      k ≤ suf.length →
      forFrom (compile_body gl p (pre ++ suf)) k pre.length (ids, tr) =
        some (ids ++ (stage_runs gl pre.length (suf.take k)).map (fun x => x.2.id),
              tr ++ (stage_runs gl pre.length (suf.take k)).flatMap
                      (fun x => compile_stage p x.1 x.2)) := by
  intro k
  induction k with
  | zero => intro pre suf ids tr _; simp [forFrom, stage_runs]
  | succ k ih =>
    intro pre suf ids tr h
    cases suf with
    | nil => simp at h
    | cons s rest =>
      have hget : (pre ++ s :: rest)[pre.length]? = some s := by
        rw [List.getElem?_append_right (le_refl _)]; simp
      have hk : k ≤ rest.length := by simpa using h
      have step := ih (pre ++ [s]) rest (ids ++ [(gl.stage pre.length).id])
        (tr ++ compile_stage p s (gl.stage pre.length)) hk
      simp only [List.append_assoc, List.singleton_append, List.length_append,
        List.length_singleton] at step
      simp only [forFrom, compile_body, hget, step, List.take_succ_cons, stage_runs,
        List.map_cons, List.flatMap_cons, List.append_assoc, List.singleton_append]

theorem forFrom_delete_body :
    ∀ (suf pre : List GLuint) (tr : List Event),
      forFrom (delete_body (pre ++ suf)) suf.length pre.length tr =
        some (tr ++ suf.map Event.glDeleteShader) := by
  intro suf
  induction suf with
  | nil => intro pre tr; simp [forFrom]
  | cons h rest ih =>
    intro pre tr
    have hget : (pre ++ h :: rest)[pre.length]? = some h := by
      rw [List.getElem?_append_right (le_refl _)]; simp
    have step := ih (pre ++ [h]) (tr ++ [Event.glDeleteShader h])
    simp only [List.append_assoc, List.singleton_append, List.length_append,
      List.length_singleton] at step
    simp only [List.length_cons, forFrom, delete_body, hget, step, List.map_cons,
      List.append_assoc, List.singleton_append]

theorem buildShader_eq (gl : GLReplies) (n : GLsizei) (l : List shader_info)
    (tr : List Event) (h : n ≤ l.length) :
    buildShader gl n l tr = some (gl.program.id, tr ++ build_calls gl (l.take n.toNat)) := by
  have hk : n.toNat ≤ l.length := Int.toNat_le.mpr h
  have h1 := forFrom_compile_body gl gl.program.id n.toNat [] l []
    (tr ++ [Event.glCreateProgram gl.program.id]) hk
  simp only [List.nil_append, List.length_nil] at h1
  have hlen : ((stage_runs gl 0 (l.take n.toNat)).map fun x => x.2.id).length = n.toNat := by
    simp [stage_runs_length, hk]
  have h2 := forFrom_delete_body ((stage_runs gl 0 (l.take n.toNat)).map fun x => x.2.id) []
    (tr ++ [Event.glCreateProgram gl.program.id] ++
      (stage_runs gl 0 (l.take n.toNat)).flatMap (fun x => compile_stage gl.program.id x.1 x.2) ++
      link_program gl.program)
  rw [hlen] at h2
  simp only [List.nil_append, List.length_nil, List.append_assoc] at h2
  simp only [buildShader, forLoop, h1, h2, build_calls, List.append_assoc]

theorem buildShader_eq_length (gl : GLReplies) (l : List shader_info) (tr : List Event) :
    buildShader gl l.length l tr = some (gl.program.id, tr ++ build_calls gl l) := by
  have h := buildShader_eq gl l.length l tr (le_refl _)
  simpa using h

/-! ## What one stage contributes to each observation -/

theorem filterMap_flatMap_calls {β γ : Type} (f : Event → Option γ) (g : β → List Event)
    (l : List β) :
    (l.flatMap g).filterMap f = l.flatMap (fun x => (g x).filterMap f) := by
  induction l with
  | nil => rfl
  | cons a l ih => simp [List.flatMap_cons, ih]

theorem getD_compile_status (r : StageReply) :
    (r.compile_status.getD GL_FALSE = GL_FALSE) = (r.compiled = false) := by
  cases h : r.compile_status <;> simp [StageReply.compiled, h, GL_FALSE]

theorem getD_link_status (r : ProgramReply) :
    (r.link_status.getD GL_FALSE = GL_FALSE) = (r.linked = false) := by
  cases h : r.link_status <;> simp [ProgramReply.linked, h, GL_FALSE]

theorem created_stages_compile_stage (p : GLuint) (s : shader_info) (r : StageReply) :
    created_stages (compile_stage p s r) = [(s.shader_type, r.id)] := by
  simp only [compile_stage, created_stages]
  split <;> simp

theorem sourced_stages_compile_stage (p : GLuint) (s : shader_info) (r : StageReply) :
    sourced_stages (compile_stage p s r) = [(r.id, 1, s.shader_source)] := by
  simp only [compile_stage, sourced_stages]
  split <;> simp

theorem compiled_stages_compile_stage (p : GLuint) (s : shader_info) (r : StageReply) :
    compiled_stages (compile_stage p s r) = [r.id] := by
  simp only [compile_stage, compiled_stages]
  split <;> simp

theorem deleted_stages_compile_stage (p : GLuint) (s : shader_info) (r : StageReply) :
    deleted_stages (compile_stage p s r) = [] := by
  simp only [compile_stage, deleted_stages]
  split <;> simp

theorem created_programs_compile_stage (p : GLuint) (s : shader_info) (r : StageReply) :
    created_programs (compile_stage p s r) = [] := by
  simp only [compile_stage, created_programs]
  split <;> simp

theorem attached_stages_compile_stage (p : GLuint) (s : shader_info) (r : StageReply) :
    attached_stages (compile_stage p s r) = if r.compiled then [(p, r.id)] else [] := by
  simp only [compile_stage, attached_stages, getD_compile_status]
  cases r.compiled <;> simp

theorem stderr_writes_compile_stage (p : GLuint) (s : shader_info) (r : StageReply) :
    stderr_writes (compile_stage p s r) =
      if r.compiled then []
      else [compile_error_block (get_shader_type_name s.shader_type) r.buffer] := by
  simp only [compile_stage, stderr_writes, getD_compile_status, compile_error_block,
    StageReply.buffer]
  cases r.compiled <;> simp

theorem created_stages_link_program (r : ProgramReply) :
    created_stages (link_program r) = [] := by
  simp only [link_program, created_stages]
  split <;> simp

theorem attached_stages_link_program (r : ProgramReply) :
    attached_stages (link_program r) = [] := by
  simp only [link_program, attached_stages]
  split <;> simp

theorem sourced_stages_link_program (r : ProgramReply) :
    sourced_stages (link_program r) = [] := by
  simp only [link_program, sourced_stages]
  split <;> simp

theorem compiled_stages_link_program (r : ProgramReply) :
    compiled_stages (link_program r) = [] := by
  simp only [link_program, compiled_stages]
  split <;> simp

theorem deleted_stages_link_program (r : ProgramReply) :
    deleted_stages (link_program r) = [] := by
  simp only [link_program, deleted_stages]
  split <;> simp

theorem created_programs_link_program (r : ProgramReply) :
    created_programs (link_program r) = [] := by
  simp only [link_program, created_programs]
  split <;> simp

theorem stderr_writes_link_program (r : ProgramReply) :
    stderr_writes (link_program r) =
      if r.linked then [] else [link_error_block r.buffer] := by
  simp only [link_program, stderr_writes, getD_link_status, link_error_block,
    ProgramReply.buffer]
  cases r.linked <;> simp

theorem filterMap_deletions {γ : Type} (f : Event → Option γ) (ids : List GLuint)
    (hf : ∀ sh, f (Event.glDeleteShader sh) = none) :
    (ids.map Event.glDeleteShader).filterMap f = [] := by
  induction ids with
  | nil => rfl
  | cons a l ih => simp [hf, ih]

theorem flatMap_singleton_fun {β γ : Type} (g : β → γ) (l : List β) :
    l.flatMap (fun x => [g x]) = l.map g := by
  induction l with
  | nil => rfl
  | cons a l ih => simp [List.flatMap_cons, ih]

theorem flatMap_nil_fun {β γ : Type} (l : List β) :
    l.flatMap (fun _ => ([] : List γ)) = [] := by
  induction l with
  | nil => rfl
  | cons a l ih => simp [List.flatMap_cons, ih]

theorem flatMap_ite_singleton {β γ : Type} (c : β → Bool) (g : β → γ) (l : List β) :
    l.flatMap (fun x => if c x then [g x] else []) = (l.filter c).map g := by
  induction l with
  | nil => rfl
  | cons a l ih =>
    cases h : c a <;> simp [List.flatMap_cons, ih, h]

/-! ## Observations on a whole build -/

theorem created_stages_build_calls (gl : GLReplies) (l : List shader_info) :
    created_stages (build_calls gl l) =
      (stage_runs gl 0 l).map fun x => (x.1.shader_type, x.2.id) := by
  have hdel := filterMap_deletions
    (fun e => match e with
      | Event.glCreateShader ty ret => some (ty, ret)
      | _ => none)
    ((stage_runs gl 0 l).map fun x => x.2.id) (fun _ => rfl)
  have hlink := created_stages_link_program gl.program
  have hst := created_stages_compile_stage gl.program.id
  simp only [created_stages] at hlink hst
  simp only [build_calls, created_stages, List.filterMap_append, filterMap_flatMap_calls,
    hdel, hlink, hst, flatMap_singleton_fun]
  simp

theorem sourced_stages_build_calls (gl : GLReplies) (l : List shader_info) :
    sourced_stages (build_calls gl l) =
      (stage_runs gl 0 l).map fun x => (x.2.id, 1, x.1.shader_source) := by
  have hdel := filterMap_deletions
    (fun e => match e with
      | Event.glShaderSource sh n src => some (sh, n, src)
      | _ => none)
    ((stage_runs gl 0 l).map fun x => x.2.id) (fun _ => rfl)
  have hlink := sourced_stages_link_program gl.program
  have hst := sourced_stages_compile_stage gl.program.id
  simp only [sourced_stages] at hlink hst
  simp only [build_calls, sourced_stages, List.filterMap_append, filterMap_flatMap_calls,
    hdel, hlink, hst, flatMap_singleton_fun]
  simp

theorem compiled_stages_build_calls (gl : GLReplies) (l : List shader_info) :
    compiled_stages (build_calls gl l) = (stage_runs gl 0 l).map fun x => x.2.id := by
  have hdel := filterMap_deletions
    (fun e => match e with
      | Event.glCompileShader sh => some sh
      | _ => none)
    ((stage_runs gl 0 l).map fun x => x.2.id) (fun _ => rfl)
  have hlink := compiled_stages_link_program gl.program
  have hst := compiled_stages_compile_stage gl.program.id
  simp only [compiled_stages] at hlink hst
  simp only [build_calls, compiled_stages, List.filterMap_append, filterMap_flatMap_calls,
    hdel, hlink, hst, flatMap_singleton_fun]
  simp

theorem attached_stages_build_calls (gl : GLReplies) (l : List shader_info) :
    attached_stages (build_calls gl l) =
      ((stage_runs gl 0 l).filter fun x => x.2.compiled).map fun x => (gl.program.id, x.2.id) := by
  have hdel := filterMap_deletions
    (fun e => match e with
      | Event.glAttachShader prog sh => some (prog, sh)
      | _ => none)
    ((stage_runs gl 0 l).map fun x => x.2.id) (fun _ => rfl)
  have hlink := attached_stages_link_program gl.program
  have hst := attached_stages_compile_stage gl.program.id
  simp only [attached_stages] at hlink hst
  simp only [build_calls, attached_stages, List.filterMap_append, filterMap_flatMap_calls,
    hdel, hlink, hst]
  rw [flatMap_ite_singleton (fun x : shader_info × StageReply => x.2.compiled)
    (fun x => (gl.program.id, x.2.id))]
  simp

theorem stderr_writes_build_calls (gl : GLReplies) (l : List shader_info) :
    stderr_writes (build_calls gl l) =
      (((stage_runs gl 0 l).filter fun x => !x.2.compiled).map fun x =>
        compile_error_block (get_shader_type_name x.1.shader_type) x.2.buffer) ++
      (if gl.program.linked then [] else [link_error_block gl.program.buffer]) := by
  have hdel := filterMap_deletions
    (fun e => match e with
      | Event.fprintf_stderr text => some text
      | _ => none)
    ((stage_runs gl 0 l).map fun x => x.2.id) (fun _ => rfl)
  have hlink := stderr_writes_link_program gl.program
  have hst := stderr_writes_compile_stage gl.program.id
  simp only [stderr_writes] at hlink hst
  have hflat := flatMap_ite_singleton (fun x : shader_info × StageReply => !x.2.compiled)
    (fun x => compile_error_block (get_shader_type_name x.1.shader_type) x.2.buffer)
    (stage_runs gl 0 l)
  have hfun : (fun x : shader_info × StageReply =>
      if x.2.compiled = true then ([] : List String)
      else [compile_error_block (get_shader_type_name x.1.shader_type) x.2.buffer]) =
      (fun x => if (!x.2.compiled) = true
        then [compile_error_block (get_shader_type_name x.1.shader_type) x.2.buffer]
        else []) := by
    funext x
    cases x.2.compiled <;> simp
  simp only [build_calls, stderr_writes, List.filterMap_append, filterMap_flatMap_calls,
    hdel, hlink, hst, hfun, hflat]
  simp

theorem deleted_stages_deletions (ids : List GLuint) :
    deleted_stages (ids.map Event.glDeleteShader) = ids := by
  induction ids with
  | nil => rfl
  | cons a l ih =>
    simp only [deleted_stages] at ih
    simp [deleted_stages, ih]

theorem deleted_stages_flatMap_compile_stage (p : GLuint) (l : List (shader_info × StageReply)) :
    deleted_stages (l.flatMap fun x => compile_stage p x.1 x.2) = [] := by
  have hst := deleted_stages_compile_stage p
  simp only [deleted_stages] at hst
  simp only [deleted_stages, filterMap_flatMap_calls, hst, flatMap_nil_fun]

theorem created_stages_flatMap_compile_stage (p : GLuint) (l : List (shader_info × StageReply)) :
    created_stages (l.flatMap fun x => compile_stage p x.1 x.2) =
      l.map fun x => (x.1.shader_type, x.2.id) := by
  have hst := created_stages_compile_stage p
  simp only [created_stages] at hst
  simp only [created_stages, filterMap_flatMap_calls, hst, flatMap_singleton_fun]

theorem created_programs_flatMap_compile_stage (p : GLuint)
    (l : List (shader_info × StageReply)) :
    created_programs (l.flatMap fun x => compile_stage p x.1 x.2) = [] := by
  have hst := created_programs_compile_stage p
  simp only [created_programs] at hst
  simp only [created_programs, filterMap_flatMap_calls, hst, flatMap_nil_fun]

theorem created_programs_append (a b : List Event) :
    created_programs (a ++ b) = created_programs a ++ created_programs b := by
  simp [created_programs]

theorem created_stages_append (a b : List Event) :
    created_stages (a ++ b) = created_stages a ++ created_stages b := by
  simp [created_stages]

theorem deleted_stages_append (a b : List Event) :
    deleted_stages (a ++ b) = deleted_stages a ++ deleted_stages b := by
  simp [deleted_stages]

theorem outstanding_stages_append (a b : List Event) :
    outstanding_stages (a ++ b) = outstanding_stages a + outstanding_stages b := by
  simp only [outstanding_stages, created_stages_append, deleted_stages_append,
    List.length_append, Nat.cast_add]
  ring

/-! ## The claims about `get_shader_type_name` and `buildShader` -/

/-- C5: `get_shader_type_name` has a result for every stage-kind value: it is
"vertex" for the vertex kind, "fragment" for the fragment kind, and the empty
string for every other value. -/
theorem get_shader_type_name_cases (shader_type : GLenum) :
    get_shader_type_name GL_VERTEX_SHADER = "vertex" ∧
    get_shader_type_name GL_FRAGMENT_SHADER = "fragment" ∧
    (shader_type ≠ GL_VERTEX_SHADER → shader_type ≠ GL_FRAGMENT_SHADER →
      get_shader_type_name shader_type = "") := by
  refine ⟨by decide, by decide, ?_⟩
  intro hv hf
  simp [get_shader_type_name, hv, hf]

theorem get_shader_type_name_cases_witness :
    (0 : GLenum) ≠ GL_VERTEX_SHADER ∧ (0 : GLenum) ≠ GL_FRAGMENT_SHADER ∧
    get_shader_type_name 0 = "" :=
  ⟨by decide, by decide, (get_shader_type_name_cases 0).2.2 (by decide) (by decide)⟩

/-- C1: for every count, every descriptor sequence and every reply of the
graphics library, a value `buildShader` returns is the handle returned by its
`glCreateProgram` call; and for every count that stays within the descriptor
array (negative counts included) `buildShader` does return, that
`glCreateProgram` call being the first call it makes and the only one of its
kind. -/
theorem buildShader_returns_created_program (gl : GLReplies) (num_shaders : GLsizei)
    (shaders : List shader_info) (tr : List Event) :
    (∀ value out, buildShader gl num_shaders shaders tr = some (value, out) →
      value = gl.program.id) ∧
    (num_shaders ≤ shaders.length →
      ∃ rest,
        buildShader gl num_shaders shaders tr =
          some (gl.program.id, tr ++ Event.glCreateProgram gl.program.id :: rest) ∧
        created_programs rest = []) := by
  constructor
  · intro value out h
    simp only [buildShader] at h
    split at h
    · exact absurd h (by simp)
    · split at h
      · exact absurd h (by simp)
      · exact (Prod.mk.inj (Option.some.inj h)).1.symm
  · intro h
    refine ⟨(stage_runs gl 0 (shaders.take num_shaders.toNat)).flatMap
        (fun x => compile_stage gl.program.id x.1 x.2) ++
      link_program gl.program ++
      ((stage_runs gl 0 (shaders.take num_shaders.toNat)).map fun x => x.2.id).map
        Event.glDeleteShader, ?_, ?_⟩
    · rw [buildShader_eq gl num_shaders shaders tr h]
      simp [build_calls]
    · rw [created_programs_append, created_programs_append,
        created_programs_flatMap_compile_stage, created_programs_link_program]
      exact filterMap_deletions _ _ (fun _ => rfl)

theorem buildShader_returns_created_program_witness :
    (2 : GLsizei) ≤ two_vertex_stages.length ∧
    ∃ value out,
      buildShader gl_rejecting 2 two_vertex_stages [] = some (value, out) ∧
      value = gl_rejecting.program.id ∧ value = 1 := by
  have hall := buildShader_returns_created_program gl_rejecting 2 two_vertex_stages []
  obtain ⟨rest, hrun, _⟩ := hall.2 (by decide)
  exact ⟨by decide, _, _, hrun, hall.1 _ _ hrun, rfl⟩

/-- C2: for every descriptor sequence and every reply of the graphics library,
the stages `buildShader` attaches are exactly those whose compile-status query
reported success, each once, in input order and to the program it created;
and every descriptor, whatever happened to the earlier ones, has its stage
object created with its kind, given its source and compiled. -/
theorem buildShader_attaches_compiled_stages (gl : GLReplies) (shaders : List shader_info)
    (tr : List Event) :
    ∃ calls,
      buildShader gl shaders.length shaders tr = some (gl.program.id, tr ++ calls) ∧
      attached_stages calls =
        (((stage_runs gl 0 shaders).filter fun x => x.2.compiled).map fun x =>
          (gl.program.id, x.2.id)) ∧
      created_stages calls = ((stage_runs gl 0 shaders).map fun x => (x.1.shader_type, x.2.id)) ∧
      sourced_stages calls =
        ((stage_runs gl 0 shaders).map fun x => (x.2.id, 1, x.1.shader_source)) ∧
      compiled_stages calls = ((stage_runs gl 0 shaders).map fun x => x.2.id) :=
  ⟨build_calls gl shaders, buildShader_eq_length gl shaders tr,
    attached_stages_build_calls gl shaders, created_stages_build_calls gl shaders,
    sourced_stages_build_calls gl shaders, compiled_stages_build_calls gl shaders⟩

/-- C4: for every descriptor sequence of length n and every reply of the
graphics library, `buildShader` creates n stage objects, all before the link
request and none after it; it deletes nothing before the link request, and
after it passes the n created handles to `glDeleteShader`, one call per
created stage object, so that no stage object of the call is outstanding at
the end and the outstanding count is what it was before the call. -/
theorem buildShader_releases_stages (gl : GLReplies) (shaders : List shader_info)
    (tr : List Event) :
    ∃ before after,
      buildShader gl shaders.length shaders tr =
        some (gl.program.id, tr ++ (before ++ Event.glLinkProgram gl.program.id :: after)) ∧
      (created_stages before).length = shaders.length ∧
      deleted_stages before = [] ∧
      created_stages after = [] ∧
      deleted_stages after = (created_stages before).map Prod.snd ∧
      outstanding_stages (before ++ Event.glLinkProgram gl.program.id :: after) = 0 ∧
      outstanding_stages (tr ++ (before ++ Event.glLinkProgram gl.program.id :: after)) =
        outstanding_stages tr := by
  have hids : deleted_stages
      (((stage_runs gl 0 shaders).map fun x => x.2.id).map Event.glDeleteShader) =
      (stage_runs gl 0 shaders).map fun x => x.2.id := deleted_stages_deletions _
  have hcr : created_stages
      (((stage_runs gl 0 shaders).map fun x => x.2.id).map Event.glDeleteShader) = [] :=
    filterMap_deletions _ _ (fun _ => rfl)
  have hlinkc := created_stages_link_program gl.program
  have hlinkd := deleted_stages_link_program gl.program
  have hsplit : link_program gl.program =
      Event.glLinkProgram gl.program.id :: (link_program gl.program).tail := by
    simp [link_program]
  have htc : created_stages (link_program gl.program).tail = [] := by
    rw [hsplit] at hlinkc
    simpa [created_stages] using hlinkc
  have htd : deleted_stages (link_program gl.program).tail = [] := by
    rw [hsplit] at hlinkd
    simpa [deleted_stages] using hlinkd
  have hzero : outstanding_stages
      (([Event.glCreateProgram gl.program.id] ++
        (stage_runs gl 0 shaders).flatMap (fun x => compile_stage gl.program.id x.1 x.2)) ++
       Event.glLinkProgram gl.program.id ::
        ((link_program gl.program).tail ++
          ((stage_runs gl 0 shaders).map fun x => x.2.id).map Event.glDeleteShader)) = 0 := by
    have hcons : ∀ l : List Event,
        Event.glLinkProgram gl.program.id :: l = [Event.glLinkProgram gl.program.id] ++ l :=
      fun _ => rfl
    rw [hcons]
    simp only [outstanding_stages_append]
    simp only [outstanding_stages, created_stages_flatMap_compile_stage,
      deleted_stages_flatMap_compile_stage, htc, htd, hids, hcr]
    simp [created_stages, deleted_stages]
  refine ⟨[Event.glCreateProgram gl.program.id] ++
      (stage_runs gl 0 shaders).flatMap (fun x => compile_stage gl.program.id x.1 x.2),
    (link_program gl.program).tail ++
      ((stage_runs gl 0 shaders).map fun x => x.2.id).map Event.glDeleteShader,
    ?_, ?_, ?_, ?_, ?_, hzero, ?_⟩
  · rw [buildShader_eq_length gl shaders tr, build_calls]
    conv_lhs => rw [hsplit]
    simp
  · rw [created_stages_append, created_stages_flatMap_compile_stage]
    simp [created_stages, stage_runs_length]
  · rw [deleted_stages_append, deleted_stages_flatMap_compile_stage]
    simp [deleted_stages]
  · rw [created_stages_append, htc, hcr]
    rfl
  · rw [deleted_stages_append, htd, hids, created_stages_append,
      created_stages_flatMap_compile_stage]
    simp [created_stages]
  · rw [outstanding_stages_append, hzero]
    simp

/-! ## The error stream -/

theorem concat_text_cons (x : String) (l : List String) :
    concat_text (x :: l) = x ++ concat_text l := rfl

theorem concat_text_append (a b : List String) :
    concat_text (a ++ b) = concat_text a ++ concat_text b := by
  induction a with
  | nil => simp [concat_text]
  | cons x a ih => rw [List.cons_append, concat_text_cons, concat_text_cons, ih,
      String.append_assoc]

theorem link_error_block_ne_empty (log : String) : link_error_block log ≠ "" := by
  intro h
  have hd := congrArg String.data h
  simp [link_error_block, String.data_append] at hd

theorem log_buffer_of_fits (n : GLint) (log unwritten : String)
    (h : (log.length : Int) < n) : log_buffer n (some log) unwritten = log := by
  cases log with
  | mk data =>
    have hlen : (data.length : Int) < n := h
    have h0 : 0 < n := lt_of_le_of_lt (Int.natCast_nonneg data.length) hlen
    simp only [log_buffer, h0, if_true]
    congr 1
    apply List.take_of_length_le
    omega

theorem stderr_text_build_calls (gl : GLReplies) (l : List shader_info) :
    stderr_text (build_calls gl l) =
      concat_text
        (((stage_runs gl 0 l).filter fun x => !x.2.compiled).map fun x =>
          compile_error_block (get_shader_type_name x.1.shader_type) x.2.buffer) ++
      (if gl.program.linked then "" else link_error_block gl.program.buffer) := by
  rw [stderr_text, stderr_writes_build_calls, concat_text_append]
  cases gl.program.linked <;> simp [concat_text]

/-- C3: the descriptor `unknown_stage`, of a kind the graphics library does not
know, gets no stage object, so no query writes anything: the compile status
stays `GL_FALSE`, the log length stays 0, and `buildShader` prints the
unwritten buffer of line 55 (here the bytes "XY") where the specification has
the information log of the stage, which is empty. -/
theorem buildShader_prints_unwritten_buffer :
    (buildShader gl_no_stage_object 1 [unknown_stage] []).map (fun r => stderr_text r.2) =
      some ("error:  shader compilation failed:\nXY\n" ++
            "error: shader program link failed:\nno stages\n") ∧
    expected_stderr gl_no_stage_object [unknown_stage] =
      "error:  shader compilation failed:\n\n" ++
      "error: shader program link failed:\nno stages\n" ∧
    (buildShader gl_no_stage_object 1 [unknown_stage] []).map (fun r => stderr_text r.2) ≠
      some (expected_stderr gl_no_stage_object [unknown_stage]) := by
  refine ⟨by decide, by decide, by decide⟩

/-- C8, as amended: for any non-empty sequence of descriptors that all compile,
`buildShader` returns the program handle with every stage attached, in input
order; the link status of that program is the one the graphics library
reports, which may be failure: it is success exactly when `buildShader` wrote
nothing to the error stream, and on failure the error stream holds exactly the
link block with the information log of the program whenever the log length
the library reports exceeds the length of that log. -/
theorem buildShader_valid_stages (gl : GLReplies) (shaders : List shader_info)
    (tr : List Event) (_hne : shaders ≠ [])
    (hvalid : ∀ x ∈ stage_runs gl 0 shaders, x.2.compiled = true) :
    ∃ calls,
      buildShader gl shaders.length shaders tr = some (gl.program.id, tr ++ calls) ∧
      attached_stages calls = ((stage_runs gl 0 shaders).map fun x => (gl.program.id, x.2.id)) ∧
      (gl.program.linked = true ↔ stderr_text calls = "") ∧
      (gl.program.linked = false →
        ∀ log, gl.program.info_log = some log →
          (log.length : Int) < gl.program.log_length.getD 0 →
          stderr_text calls = link_error_block log) := by
  have hfilter : ((stage_runs gl 0 shaders).filter fun x => !x.2.compiled) = [] := by
    apply List.filter_eq_nil_iff.mpr
    intro x hx
    simp [hvalid x hx]
  have hkeep : ((stage_runs gl 0 shaders).filter fun x => x.2.compiled) =
      stage_runs gl 0 shaders := by
    apply List.filter_eq_self.mpr
    intro x hx
    exact hvalid x hx
  have htext : stderr_text (build_calls gl shaders) =
      if gl.program.linked then "" else link_error_block gl.program.buffer := by
    rw [stderr_text_build_calls, hfilter]
    simp [concat_text]
  refine ⟨build_calls gl shaders, buildShader_eq_length gl shaders tr, ?_, ?_, ?_⟩
  · rw [attached_stages_build_calls, hkeep]
  · rw [htext]
    cases hl : gl.program.linked
    · simp [link_error_block_ne_empty]
    · simp
  · intro hl log hlog hfits
    rw [htext, hl, ProgramReply.buffer, hlog, log_buffer_of_fits _ _ _ hfits]
    rfl

theorem buildShader_valid_stages_witness :
    two_vertex_stages ≠ [] ∧
    (∀ x ∈ stage_runs gl_link_rejecting 0 two_vertex_stages, x.2.compiled = true) ∧
    gl_link_rejecting.program.linked = false ∧
    gl_link_rejecting.program.info_log = some "two main" ∧
    (("two main".length : Int) < gl_link_rejecting.program.log_length.getD 0) ∧
    ∃ calls,
      buildShader gl_link_rejecting two_vertex_stages.length two_vertex_stages [] =
        some (1, [] ++ calls) ∧
      attached_stages calls = [(1, 2), (1, 3)] ∧
      stderr_text calls = "error: shader program link failed:\ntwo main\n" := by
  refine ⟨by decide, by decide, by decide, by decide, by decide, ?_⟩
  obtain ⟨calls, hrun, hatt, _, hfail⟩ :=
    buildShader_valid_stages gl_link_rejecting two_vertex_stages [] (by decide) (by decide)
  exact ⟨calls, hrun, hatt.trans (by decide),
    (hfail (by decide) "two main" (by decide) (by decide)).trans (by decide)⟩

/-- C8, as stated, fails: two vertex-kind descriptors that both compile (the
non-empty sequence `two_vertex_stages`) are attached and linked, the link
status the graphics library reports for the returned program is failure, and
`buildShader` returns the handle all the same after printing the link log. -/
theorem buildShader_link_may_fail :
    two_vertex_stages ≠ [] ∧
    (∀ x ∈ stage_runs gl_link_rejecting 0 two_vertex_stages, x.2.compiled = true) ∧
    buildShader gl_link_rejecting 2 two_vertex_stages [] =
      some (1,
        [Event.glCreateProgram 1,
         Event.glCreateShader GL_VERTEX_SHADER 2,
         Event.glShaderSource 2 1 "void main() \x7b\x7d",
         Event.glCompileShader 2,
         Event.glGetShaderiv 2 GL_COMPILE_STATUS (some 1),
         Event.glAttachShader 1 2,
         Event.glCreateShader GL_VERTEX_SHADER 3,
         Event.glShaderSource 3 1 "void main() \x7b\x7d",
         Event.glCompileShader 3,
         Event.glGetShaderiv 3 GL_COMPILE_STATUS (some 1),
         Event.glAttachShader 1 3,
         Event.glLinkProgram 1,
         Event.glGetProgramiv 1 GL_LINK_STATUS (some 0),
         Event.glGetProgramiv 1 GL_INFO_LOG_LENGTH (some 9),
         Event.glGetProgramInfoLog 1 9 "two main",
         Event.fprintf_stderr "error: shader program link failed:\ntwo main\n",
         Event.glDeleteShader 2,
         Event.glDeleteShader 3]) ∧
    gl_link_rejecting.program.linked = false := by
  refine ⟨by decide, by decide, by decide, by decide⟩

/-! ## The callbacks -/

/-- C6: for every window handle, width W and height H, the resize callback
makes the single call `glViewport(0, 0, W, H)`: the active viewport becomes
(0, 0, W, H) and the bound program, the attached stages, the window and the
output streams are as before; the key, cursor position, mouse button and
scroll callbacks make no call and leave the whole state as it is. -/
theorem callbacks_effect (s : GfxState) (window : Nat) (W H : Int)
    (key scancode action mods button : Int) (x y : Float) :
    window_resize_callback window W H = [Event.glViewport 0 0 W H] ∧
    run_calls s (window_resize_callback window W H) = { s with viewport := (0, 0, W, H) } ∧
    key_callback window key scancode action mods = [] ∧
    run_calls s (key_callback window key scancode action mods) = s ∧
    cursor_position_callback window x y = [] ∧
    run_calls s (cursor_position_callback window x y) = s ∧
    mouse_button_callback window button action mods = [] ∧
    run_calls s (mouse_button_callback window button action mods) = s ∧
    scroll_callback window x y = [] ∧
    run_calls s (scroll_callback window x y) = s :=
  ⟨rfl, rfl, rfl, rfl, rfl, rfl, rfl, rfl, rfl, rfl⟩

/-! ## `main` and its render loop -/

theorem main_started (GLAD_GLES : Bool) (c : Collaborators) (fuel : Nat)
    (hw : c.window ≠ NULL) (hl : c.load ≠ 0) :
    main GLAD_GLES c fuel =
      (render_loop c c.window fuel 0 (startup_calls GLAD_GLES c)).map
        fun tr => (EXIT_SUCCESS, tr ++ [Event.glfwTerminate]) := by
  have hlen : num_shaders ≤ ((shaders GLAD_GLES).length : Int) := by
    simp [num_shaders, shaders]
  have htake : (shaders GLAD_GLES).take num_shaders.toNat = shaders GLAD_GLES := by
    simp [num_shaders, shaders]
  simp only [main, hw, hl, if_false, buildShader_eq c.gl num_shaders (shaders GLAD_GLES) _ hlen,
    htake, startup_calls, List.append_assoc, List.cons_append, List.nil_append]
  cases render_loop c c.window fuel 0 _ <;> rfl

theorem render_loop_frames (c : Collaborators) (w : Nat) :
    ∀ (k fuel j : Nat) (tr : List Event),
      (∀ i, i < k → c.should_close (j + i) = 0) → c.should_close (j + k) ≠ 0 → k < fuel →
      render_loop c w fuel j tr =
        some (tr ++ (List.replicate k (frame w)).flatten ++
          [Event.glfwWindowShouldClose w (c.should_close (j + k))]) := by
  intro k
  induction k with
  | zero =>
    intro fuel j tr _ hclosed hfuel
    obtain ⟨f, rfl⟩ : ∃ f, fuel = f + 1 := ⟨fuel - 1, by omega⟩
    have hc : c.should_close j ≠ 0 := by simpa using hclosed
    simp [render_loop, hc]
  | succ k ih =>
    intro fuel j tr hopen hclosed hfuel
    obtain ⟨f, rfl⟩ : ∃ f, fuel = f + 1 := ⟨fuel - 1, by omega⟩
    have h0 : c.should_close j = 0 := by simpa using hopen 0 (by omega)
    have hopen1 : ∀ i, i < k → c.should_close (j + 1 + i) = 0 := by
      intro i hi
      have := hopen (i + 1) (by omega)
      rwa [show j + (i + 1) = j + 1 + i by omega] at this
    have hclosed1 : c.should_close (j + 1 + k) ≠ 0 := by
      rwa [show j + (k + 1) = j + 1 + k by omega] at hclosed
    have step := ih f (j + 1)
      (tr ++ [Event.glfwWindowShouldClose w (c.should_close j)] ++
        [Event.glfwPollEvents, Event.glDrawArrays GL_TRIANGLES 0 3, Event.glfwSwapBuffers w])
      hopen1 hclosed1 (by omega)
    rw [h0] at step
    simp only [List.append_assoc, List.cons_append, List.nil_append] at step
    rw [show j + (k + 1) = j + 1 + k by omega]
    simp only [render_loop, h0, if_true, List.replicate_succ, List.flatten_cons, frame,
      List.append_assoc, List.cons_append, List.nil_append]
    simpa only [frame] using step

theorem render_loop_first_close (c : Collaborators) (w : Nat) :
    ∀ (fuel j : Nat) (tr out : List Event),
      render_loop c w fuel j tr = some out →
      ∃ k, k < fuel ∧ (∀ i, i < k → c.should_close (j + i) = 0) ∧
        c.should_close (j + k) ≠ 0 := by
  intro fuel
  induction fuel with
  | zero => intro j tr out h; simp [render_loop] at h
  | succ f ih =>
    intro j tr out h
    by_cases hc : c.should_close j = 0
    · simp only [render_loop, hc, if_true] at h
      obtain ⟨k, hk, hopen, hclosed⟩ := ih _ _ _ h
      refine ⟨k + 1, by omega, ?_, ?_⟩
      · intro i hi
        cases i with
        | zero => simpa using hc
        | succ i =>
          have := hopen i (by omega)
          rwa [show j + 1 + i = j + (i + 1) by omega] at this
      · rwa [show j + 1 + k = j + (k + 1) by omega] at hclosed
    · exact ⟨0, by omega, fun i hi => absurd hi (by omega), by simpa using hc⟩

theorem render_loop_isSome (c : Collaborators) (w : Nat) :
    ∀ (fuel j : Nat) (tr : List Event),
      (∃ k, k < fuel ∧ c.should_close (j + k) ≠ 0) →
      (render_loop c w fuel j tr).isSome = true := by
  intro fuel
  induction fuel with
  | zero => intro j tr h; obtain ⟨k, hk, _⟩ := h; omega
  | succ f ih =>
    intro j tr h
    by_cases hc : c.should_close j = 0
    · simp only [render_loop, hc, if_true]
      apply ih
      obtain ⟨k, hk, hclosed⟩ := h
      cases k with
      | zero => simp [hc] at hclosed
      | succ k =>
        exact ⟨k, by omega, by rwa [show j + (k + 1) = j + 1 + k by omega] at hclosed⟩
    · simp [render_loop, hc]

theorem compile_stage_no_loop_call (p : GLuint) (s : shader_info) (r : StageReply) :
    ∀ e ∈ compile_stage p s r, e.is_loop_call = false := by
  simp only [compile_stage]
  split <;> simp [Event.is_loop_call]

theorem link_program_no_loop_call (r : ProgramReply) :
    ∀ e ∈ link_program r, e.is_loop_call = false := by
  simp only [link_program]
  split <;> simp [Event.is_loop_call]

theorem build_calls_no_loop_call (gl : GLReplies) (l : List shader_info) :
    ∀ e ∈ build_calls gl l, e.is_loop_call = false := by
  intro e he
  simp only [build_calls, List.mem_append, List.mem_flatMap, List.mem_map,
    List.mem_singleton] at he
  rcases he with ((rfl | ⟨x, _, hx⟩) | hlink) | ⟨id, _, rfl⟩
  · rfl
  · exact compile_stage_no_loop_call _ _ _ e hx
  · exact link_program_no_loop_call _ e hlink
  · rfl

theorem startup_calls_no_loop_call (GLAD_GLES : Bool) (c : Collaborators) :
    ∀ e ∈ startup_calls GLAD_GLES c, e.is_loop_call = false := by
  intro e he
  simp only [startup_calls, List.mem_append] at he
  rcases he with (hhead | hbuild) | htail
  · cases GLAD_GLES <;> simp at hhead <;> rcases hhead with h | h | h | h | h | h | h | h | h | h <;>
      rw [h] <;> rfl
  · exact build_calls_no_loop_call _ _ e hbuild
  · simp at htail
    rcases htail with h | h <;> rw [h] <;> rfl

/-- C7: in every run of `main` that terminates, the exit status is the failure
status if and only if window creation returned no window or the function-table
load reported failure; in every other terminating run, whatever the outcome of
the shader build, the status is the success status, and it is returned once
the close signal is observed: some close query k within the allowance is the
first that the windowing library answers "closed", and the history ends with
that query and its answer followed by the teardown.  The run does terminate
when window creation or the load fails, and when some close query within the
allowance answers "closed". -/
theorem main_exit_status (GLAD_GLES : Bool) (c : Collaborators) (fuel : Nat) :
    (∀ status tr, main GLAD_GLES c fuel = some (status, tr) →
      (status = EXIT_FAILURE ↔ (c.window = NULL ∨ c.load = 0)) ∧
      (¬ (c.window = NULL ∨ c.load = 0) →
        status = EXIT_SUCCESS ∧
        ∃ k, k < fuel ∧ (∀ j, j < k → c.should_close j = 0) ∧ c.should_close k ≠ 0 ∧
          ∃ before,
            tr = before ++
              [Event.glfwWindowShouldClose c.window (c.should_close k),
               Event.glfwTerminate])) ∧
    ((c.window = NULL ∨ c.load = 0 ∨ ∃ k, k < fuel ∧ c.should_close k ≠ 0) →
      (main GLAD_GLES c fuel).isSome = true) := by
  by_cases hw : c.window = NULL
  · have hmain : ∃ tr0, main GLAD_GLES c fuel = some (EXIT_FAILURE, tr0) := by
      simp [main, hw]
    obtain ⟨tr0, h0⟩ := hmain
    refine ⟨?_, fun _ => by simp [h0]⟩
    intro status tr h
    rw [h0] at h
    obtain ⟨rfl, -⟩ := Prod.mk.inj (Option.some.inj h)
    exact ⟨by simp [hw], fun hn => absurd (Or.inl hw) hn⟩
  · by_cases hl : c.load = 0
    · have hmain : ∃ tr0, main GLAD_GLES c fuel = some (EXIT_FAILURE, tr0) := by
        simp [main, hw, hl]
      obtain ⟨tr0, h0⟩ := hmain
      refine ⟨?_, fun _ => by simp [h0]⟩
      intro status tr h
      rw [h0] at h
      obtain ⟨rfl, -⟩ := Prod.mk.inj (Option.some.inj h)
      exact ⟨by simp [hl], fun hn => absurd (Or.inr hl) hn⟩
    · rw [main_started GLAD_GLES c fuel hw hl]
      constructor
      · intro status tr h
        cases hloop : render_loop c c.window fuel 0 (startup_calls GLAD_GLES c) with
        | none => simp [hloop] at h
        | some out =>
          obtain ⟨k, hk, hopen, hclosed⟩ :=
            render_loop_first_close c c.window _ _ _ _ hloop
          have hframes := render_loop_frames c c.window k fuel 0 (startup_calls GLAD_GLES c)
            hopen hclosed hk
          rw [hframes] at h
          obtain ⟨rfl, rfl⟩ := Prod.mk.inj (Option.some.inj h)
          refine ⟨by simp [hw, hl, EXIT_SUCCESS, EXIT_FAILURE], fun _ => ⟨rfl, k, hk, ?_, ?_, ?_⟩⟩
          · simpa using hopen
          · simpa using hclosed
          · exact ⟨startup_calls GLAD_GLES c ++ (List.replicate k (frame c.window)).flatten,
              by simp⟩
      · rintro (h | h | ⟨k, hk, hclosed⟩)
        · exact absurd h hw
        · exact absurd h hl
        · have := render_loop_isSome c c.window fuel 0 (startup_calls GLAD_GLES c)
            ⟨k, hk, by simpa using hclosed⟩
          simpa using this

theorem main_exit_status_witness :
    ¬ (run_rejected_shaders.window = NULL ∨ run_rejected_shaders.load = 0) ∧
    run_rejected_shaders.gl.program.linked = false ∧
    (main false run_rejected_shaders 3).isSome = true ∧
    (∃ tr, main false run_rejected_shaders 3 = some (EXIT_SUCCESS, tr) ∧
      ∃ k, k < 3 ∧ (∀ j, j < k → run_rejected_shaders.should_close j = 0) ∧
        run_rejected_shaders.should_close k ≠ 0 ∧
        ∃ before,
          tr = before ++
            [Event.glfwWindowShouldClose run_rejected_shaders.window
               (run_rejected_shaders.should_close k),
             Event.glfwTerminate]) ∧
    (run_no_table.window = NULL ∨ run_no_table.load = 0) ∧
    (∃ tr, main false run_no_table 3 = some (EXIT_FAILURE, tr)) := by
  have hsome := (main_exit_status false run_rejected_shaders 3).2
    (Or.inr (Or.inr ⟨2, by decide, by decide⟩))
  obtain ⟨⟨status, tr⟩, htr⟩ := Option.isSome_iff_exists.mp hsome
  have hs := ((main_exit_status false run_rejected_shaders 3).1 status tr htr).2 (by decide)
  have hsome1 := (main_exit_status false run_no_table 3).2 (Or.inr (Or.inl (by decide)))
  obtain ⟨⟨status1, tr1⟩, htr1⟩ := Option.isSome_iff_exists.mp hsome1
  have hf := ((main_exit_status false run_no_table 3).1 status1 tr1 htr1).1.mpr (by decide)
  refine ⟨by decide, by decide, hsome, ⟨tr, by rw [htr, hs.1], hs.2⟩, by decide,
    ⟨tr1, by rw [htr1, hf]⟩⟩

/-- C9: in a run that reaches the render loop (the window is created and the
function table loads), if the close query answers "not closed" exactly k times
and then "closed", the history of `main` is: calls that are none of close
query, poll, draw, swap or teardown; then k times the block of one close
query answering "not closed", one event poll, one draw of 3 vertices from
vertex 0 as a triangle list and one buffer swap; then the close query that
answers "closed", followed only by the teardown; and `main` returns the
success status. -/
theorem main_render_loop (GLAD_GLES : Bool) (c : Collaborators) (k fuel : Nat)
    (hw : c.window ≠ NULL) (hl : c.load ≠ 0)
    (hopen : ∀ j, j < k → c.should_close j = 0) (hclosed : c.should_close k ≠ 0)
    (hfuel : k < fuel) :
    ∃ startup,
      (∀ e ∈ startup, e.is_loop_call = false) ∧
      main GLAD_GLES c fuel =
        some (EXIT_SUCCESS,
          startup ++ (List.replicate k (frame c.window)).flatten ++
            [Event.glfwWindowShouldClose c.window (c.should_close k), Event.glfwTerminate]) := by
  refine ⟨startup_calls GLAD_GLES c, startup_calls_no_loop_call GLAD_GLES c, ?_⟩
  have hloop := render_loop_frames c c.window k fuel 0 (startup_calls GLAD_GLES c)
    (by simpa using hopen) (by simpa using hclosed) hfuel
  rw [main_started GLAD_GLES c fuel hw hl, hloop]
  simp

theorem main_render_loop_witness :
    run_rejected_shaders.window ≠ NULL ∧ run_rejected_shaders.load ≠ 0 ∧
    (∀ j, j < 2 → run_rejected_shaders.should_close j = 0) ∧
    run_rejected_shaders.should_close 2 ≠ 0 ∧
    ∃ startup,
      (∀ e ∈ startup, e.is_loop_call = false) ∧
      main false run_rejected_shaders 3 =
        some (EXIT_SUCCESS,
          startup ++ (List.replicate 2 (frame run_rejected_shaders.window)).flatten ++
            [Event.glfwWindowShouldClose run_rejected_shaders.window
               (run_rejected_shaders.should_close 2), Event.glfwTerminate]) :=
  ⟨by decide, by decide, by decide, by decide,
    main_render_loop false run_rejected_shaders 2 3 (by decide) (by decide) (by decide)
      (by decide) (by decide)⟩

/-- C10: in the run `run_no_window`, where window creation returns no window,
`main` under either build setting and any allowance calls
`glfwMakeContextCurrent` with the null window after the failed creation and
before the message, the teardown and the failure status. -/
theorem main_no_window_history (GLAD_GLES : Bool) (fuel : Nat) :
    main GLAD_GLES run_no_window fuel =
      some (EXIT_FAILURE,
        [Event.glfwInit,
         Event.glfwCreateWindow 1024 768 "Template OpenGL Project" NULL,
         Event.glfwMakeContextCurrent NULL,
         Event.fprintf_stderr "Failed to create GLFW window\n",
         Event.glfwTerminate]) := by
  simp [main, run_no_window, WINDOW_WIDTH, WINDOW_HEIGHT]

end GLTemplate
